import Mathlib

/-!
Verification of the spaced-repetition scheduler and weekly-quiz engine of the
ssc-cgl-telegram-bot repository.

The development shallowly embeds the two core source files:

* `src/utils/spaced_repetition.py` (class `SpacedRepetition`): the SuperMemo-2
  derived review scheduler (`calculate_next_review`), the due-item selector
  (`get_due_items` with `_calculate_priority` / `_calculate_difficulty_score`),
  the record updater (`update_progress`, `_update_difficulty_level`) and
  `initialize_item`.
* `src/utils/quiz_manager.py` (class `QuizManager`): quiz session lifecycle
  (`create_weekly_quiz`, `submit_answer`, `_generate_result`,
  `_generate_recommendations`), plus the Telegram handlers from `src/main.py`
  that drive it (`quiz_command`, `handle_quiz_answer`).

Python floats are embedded as exact rationals (`ℚ`); timestamps are rationals
(days for the scheduler, seconds for the quiz engine — each module only ever
subtracts and compares its own timestamps, so the unit is a convention).
Python dicts that are iterated in insertion order are embedded as association
lists, with explicit insert/update operations mirroring dict assignment.
-/

namespace SSC

/-- Item types, from the `ItemType` enum of `spaced_repetition.py`. -/
inductive ItemType where
  | vocabulary
  | idiom
  | grammar
  | quiz_question
  | general_knowledge
  | current_affairs
deriving DecidableEq, Repr

/-- Learning stages, from the `LearningStage` enum of `spaced_repetition.py`. -/
inductive LearningStage where
  | new
  | learning
  | review
  | mastered
deriving DecidableEq, Repr

/-! Scheduler parameters, from `SpacedRepetition.__init__`. -/

def ease_factor_default : ℚ := 2.5
def ease_factor_min : ℚ := 1.3
def grade_threshold : ℤ := 3
def mastery_threshold : ℚ := 21
def max_daily_reviews : ℕ := 50
def learning_steps : List ℚ := [1, 10]
def graduation_interval : ℚ := 1
def easy_bonus : ℚ := 1.3

/-- Result dictionary of `SpacedRepetition.calculate_next_review`.  The
`next_review_date` entry is `datetime.now() + timedelta(days=new_interval)`;
the caller's clock is passed in explicitly as `now`. -/
structure ReviewResult where
  next_interval : ℚ
  ease_factor : ℚ
  repetitions : ℕ
  stage : LearningStage
  next_review_date : ℚ
deriving DecidableEq, Repr

/-- `SpacedRepetition.calculate_next_review(interval, ease_factor, grade,
repetitions, item_stage)`, lines 64–136 of `spaced_repetition.py`.  The Python
if/elif/else chain on `item_stage` is kept as a chain of conditionals; the
final `else` covers both `review` and `mastered`.  `math.ceil` is `Int.ceil`
re-embedded into `ℚ`. -/
def calculate_next_review (interval ease_factor : ℚ) (grade : ℤ) (repetitions : ℕ)
    (item_stage : LearningStage) (now : ℚ) : ReviewResult :=
  if grade < grade_threshold then
    -- Failed recall - reset to learning phase
    let new_interval : ℚ :=
      if item_stage = LearningStage.new then learning_steps.getD 0 0 / (24 * 60) else 1
    { next_interval := new_interval
      ease_factor := max (ease_factor - 0.2) ease_factor_min
      repetitions := 0
      stage := LearningStage.learning
      next_review_date := now + new_interval }
  else
    -- Successful recall
    let new_repetitions := repetitions + 1
    if item_stage = LearningStage.new then
      -- First successful review
      let new_interval : ℚ := learning_steps.getD 0 0 / (24 * 60)
      { next_interval := new_interval
        ease_factor := ease_factor
        repetitions := new_repetitions
        stage := LearningStage.learning
        next_review_date := now + new_interval }
    else if item_stage = LearningStage.learning then
      -- In learning phase
      let new_interval : ℚ :=
        if learning_steps.length ≤ new_repetitions then graduation_interval
        else learning_steps.getD (new_repetitions - 1) 0 / (24 * 60)
      let new_stage :=
        if learning_steps.length ≤ new_repetitions then LearningStage.review
        else LearningStage.learning
      { next_interval := new_interval
        ease_factor := ease_factor
        repetitions := new_repetitions
        stage := new_stage
        next_review_date := now + new_interval }
    else
      -- In review phase
      let base : ℚ :=
        if new_repetitions = 1 then 1
        else if new_repetitions = 2 then 6
        else ((⌈interval * ease_factor⌉ : ℤ) : ℚ)
      -- Apply easy bonus for grade 5
      let new_interval : ℚ :=
        if grade = 5 then ((⌈base * easy_bonus⌉ : ℤ) : ℚ) else base
      -- Check for mastery
      let new_stage :=
        if mastery_threshold ≤ new_interval then LearningStage.mastered
        else LearningStage.review
      -- Update ease factor based on grade
      let new_ease_factor : ℚ :=
        max (ease_factor + (0.1 - ((5 - grade : ℤ) : ℚ) * (0.08 + ((5 - grade : ℤ) : ℚ) * 0.02)))
          ease_factor_min
      { next_interval := new_interval
        ease_factor := new_ease_factor
        repetitions := new_repetitions
        stage := new_stage
        next_review_date := now + new_interval }

/-- One entry of a progress record's `review_history` list (`update_progress`
appends `date / grade / response_time / previous_interval / new_interval`). -/
structure ReviewEntry where
  date : ℚ
  grade : ℤ
  response_time : Option ℚ
  previous_interval : ℚ
  new_interval : ℚ
deriving DecidableEq, Repr

/-- A per-item progress record, as built by `SpacedRepetition.initialize_item`
and mutated by `update_progress`.  The opaque presentation payloads of the
Python dict (`content`, `tags`, `source`) are never read by any algorithm
(only copied verbatim) and are omitted. -/
structure Progress where
  item_id : String
  type : ItemType
  interval : ℚ
  ease_factor : ℚ
  repetitions : ℕ
  stage : LearningStage
  next_review_date : ℚ
  created_date : ℚ
  last_review_date : Option ℚ
  total_reviews : ℕ
  correct_reviews : ℕ
  review_history : List ReviewEntry
  difficulty_level : ℚ
deriving DecidableEq, Repr

/-- `SpacedRepetition.initialize_item(item_id, item_type, content)`; `now` is
`datetime.now()`. -/
def init_item (item_id : String) (t : ItemType) (now : ℚ) : Progress :=
  { item_id := item_id
    type := t
    interval := 1
    ease_factor := ease_factor_default
    repetitions := 0
    stage := LearningStage.new
    next_review_date := now
    created_date := now
    last_review_date := none
    total_reviews := 0
    correct_reviews := 0
    review_history := []
    difficulty_level := 1 }

/-- `SpacedRepetition._update_difficulty_level(progress)`: mutates only
`difficulty_level`, from the average of the trailing five grades of
`review_history` (Python slice `[-5:]` is `drop (length - 5)`). -/
def update_difficulty_level (progress : Progress) : Progress :=
  if progress.review_history.length < 3 then progress
  else
    let recent_grades := (progress.review_history.drop (progress.review_history.length - 5)).map
      (fun r => r.grade)
    let avg_grade : ℚ := ((recent_grades.sum : ℤ) : ℚ) / (recent_grades.length : ℚ)
    if 4.5 ≤ avg_grade then
      { progress with difficulty_level := max 0.5 (progress.difficulty_level - 0.1) }
    else if avg_grade < 3.0 then
      { progress with difficulty_level := min 2.0 (progress.difficulty_level + 0.2) }
    else progress

/-- `SpacedRepetition.update_progress(progress, grade, response_time)`; `now`
is `datetime.now()`.  Appends the review to the bounded history (last 20),
installs the `calculate_next_review` result and refreshes counters, then runs
`_update_difficulty_level`. -/
def update_progress (progress : Progress) (grade : ℤ) (response_time : Option ℚ)
    (now : ℚ) : Progress :=
  let result := calculate_next_review progress.interval progress.ease_factor grade
    progress.repetitions progress.stage now
  let review_entry : ReviewEntry :=
    { date := now
      grade := grade
      response_time := response_time
      previous_interval := progress.interval
      new_interval := result.next_interval }
  let rh := progress.review_history ++ [review_entry]
  let rh := if 20 < rh.length then rh.drop (rh.length - 20) else rh
  update_difficulty_level
    { progress with
      interval := result.next_interval
      ease_factor := result.ease_factor
      repetitions := result.repetitions
      stage := result.stage
      next_review_date := result.next_review_date
      last_review_date := some now
      total_reviews := progress.total_reviews + 1
      correct_reviews := progress.correct_reviews + (if grade_threshold ≤ grade then 1 else 0)
      review_history := rh }

/-- `SpacedRepetition._calculate_priority(progress, current_time)`:
`days_overdue = (current_time - next_review).days` (Python `timedelta.days`
floors), `priority = days_overdue + (3.0 - ease_factor)`, floored at 0. -/
def calculate_priority (progress : Progress) (current_time : ℚ) : ℚ :=
  let days_overdue : ℤ := ⌊current_time - progress.next_review_date⌋
  max ((days_overdue : ℚ) + (3.0 - progress.ease_factor)) 0

/-- `SpacedRepetition._calculate_difficulty_score(progress)`. -/
def calculate_difficulty_score (progress : Progress) : ℚ :=
  if progress.total_reviews = 0 then 1.0
  else
    let accuracy : ℚ := (progress.correct_reviews : ℚ) / (progress.total_reviews : ℚ)
    let difficulty := (1 - accuracy) + (3.0 - progress.ease_factor) / 2.0
    max 0.1 (min 2.0 difficulty)

/-- The `ReviewItem` dataclass of `spaced_repetition.py` (its opaque `content`
payload, copied verbatim from the progress record, is omitted). -/
structure ReviewItem where
  item_id : String
  item_type : ItemType
  stage : LearningStage
  priority : ℚ
  days_overdue : ℤ
  difficulty_score : ℚ
deriving DecidableEq, Repr

/-- The `ReviewItem` that `get_due_items` builds for a due record. -/
def mkReviewItem (now : ℚ) (item_id : String) (progress : Progress) : ReviewItem :=
  { item_id := item_id
    item_type := progress.type
    stage := progress.stage
    priority := calculate_priority progress now
    days_overdue := max 0 ⌊now - progress.next_review_date⌋
    difficulty_score := calculate_difficulty_score progress }

/-- The type filter at the top of the `get_due_items` loop: Python skips a
record iff `item_types` is truthy (non-`None` and non-empty) and the record's
type is not listed. -/
def type_allowed (item_types : Option (List ItemType)) (t : ItemType) : Bool :=
  match item_types with
  | none => true
  | some ts => if ts.isEmpty then true else ts.contains t

/-- `max_items = max_items or self.max_daily_reviews`: Python `or` replaces
both `None` and `0` with the 50-item default. -/
def effective_max_items (max_items : Option ℕ) : ℕ :=
  match max_items with
  | none => max_daily_reviews
  | some n => if n = 0 then max_daily_reviews else n

/-- The list the `get_due_items` loop accumulates before sorting: the due
records (type-allowed, `next_review_date ≤ now`) in dict-iteration order,
wrapped as `ReviewItem`s. -/
def due_list (user_progress : List (String × Progress))
    (item_types : Option (List ItemType)) (now : ℚ) : List ReviewItem :=
  (user_progress.filter
    (fun p => type_allowed item_types p.2.type && decide (p.2.next_review_date ≤ now))).map
    (fun p => mkReviewItem now p.1 p.2)

/-- The ordering used by `due_items.sort(key=lambda x: x.priority, reverse=True)`:
`a` may come before `b` iff `a.priority ≥ b.priority`. -/
def prio_ge (a b : ReviewItem) : Prop := b.priority ≤ a.priority

instance : DecidableRel prio_ge := fun a b =>
  inferInstanceAs (Decidable (b.priority ≤ a.priority))

instance : IsTotal ReviewItem prio_ge := ⟨fun a b => le_total b.priority a.priority⟩

instance : IsTrans ReviewItem prio_ge :=
  ⟨fun _ _ _ h1 h2 => le_trans h2 h1⟩

/-- `SpacedRepetition.get_due_items(user_progress, max_items, item_types)`;
`now` is `datetime.now()`.  Python's `list.sort` is a stable sort, embedded as
`List.insertionSort` (which is stable and sorts by `prio_ge`, i.e. descending
priority); the result is truncated by slicing `[:max_items]`. -/
def get_due_items (user_progress : List (String × Progress)) (max_items : Option ℕ)
    (item_types : Option (List ItemType)) (now : ℚ) : List ReviewItem :=
  (List.insertionSort prio_ge (due_list user_progress item_types now)).take
    (effective_max_items max_items)

/-- `get_due_items` as a call on the scheduler state: the Python method only
reads `user_progress` (it builds a private `due_items` list), so the progress
map component of the state is returned unchanged. -/
def get_due_items_call (user_progress : List (String × Progress)) (max_items : Option ℕ)
    (item_types : Option (List ItemType)) (now : ℚ) :
    List ReviewItem × List (String × Progress) :=
  (get_due_items user_progress max_items item_types now, user_progress)

/-! Embedding of `src/utils/quiz_manager.py` and the quiz handlers of
`src/main.py`.  Quiz timestamps are rationals measured in seconds
(`total_seconds()` of a difference of clock readings is embedded as plain
subtraction). -/

/-- The `QuizDifficulty` enum. -/
inductive QuizDifficulty where
  | easy
  | medium
  | hard
deriving DecidableEq, Repr, Inhabited

/-- The `QuizCategory` enum. -/
inductive QuizCategory where
  | quantitative_aptitude
  | general_intelligence
  | general_awareness
  | english_comprehension
  | mixed
deriving DecidableEq, Repr, Inhabited

/-- The `.value` string of a `QuizCategory`. -/
def categoryValue : QuizCategory → String
  | QuizCategory.quantitative_aptitude => "quantitative_aptitude"
  | QuizCategory.general_intelligence => "general_intelligence"
  | QuizCategory.general_awareness => "general_awareness"
  | QuizCategory.english_comprehension => "english_comprehension"
  | QuizCategory.mixed => "mixed"

/-- Python `str.title()` restricted to the inputs it is applied to here
(lower-case letters and spaces): capitalize the first letter of each
space-separated word. -/
def pyTitle (s : String) : String :=
  String.intercalate " " ((s.splitOn " ").map String.capitalize)

/-- `cat.replace('_', ' ').title()`, the display name used for weak/strong
areas in `_generate_result`. -/
def categoryDisplay (c : QuizCategory) : String :=
  pyTitle ((categoryValue c).replace "_" " ")

/-- The `QuizQuestion` dataclass. -/
structure QuizQuestion where
  id : String
  category : QuizCategory
  difficulty : QuizDifficulty
  question : String
  options : List String
  correct_answer : ℕ
  explanation : String
  tags : List String
  source : String := "SSC-CGL Practice"
deriving DecidableEq, Repr, Inhabited

/-- The `QuizSession` dataclass. -/
structure QuizSession where
  session_id : String
  user_id : ℤ
  questions : List QuizQuestion
  current_question : ℕ
  score : ℕ
  start_time : ℚ
  end_time : Option ℚ
  user_answers : List (Option ℕ)
  time_per_question : List ℚ
  category : QuizCategory
  difficulty : QuizDifficulty
deriving DecidableEq, Repr

/-- The `QuizResult` dataclass. -/
structure QuizResult where
  session_id : String
  user_id : ℤ
  total_questions : ℕ
  correct_answers : ℕ
  score_percentage : ℚ
  time_taken : ℚ
  category : QuizCategory
  difficulty : QuizDifficulty
  weak_areas : List String
  strong_areas : List String
  recommendations : List String
deriving DecidableEq, Repr

/-- The per-category tallies built by the `category_performance` loop of
`_generate_result`: an insertion-ordered dict `category ↦ (correct, total)`. -/
def perf_add (m : List (QuizCategory × ℕ × ℕ)) (cat : QuizCategory) (correct : Bool) :
    List (QuizCategory × ℕ × ℕ) :=
  if m.any (fun e => e.1 == cat) then
    m.map (fun e =>
      if e.1 = cat then (e.1, e.2.1 + (if correct then 1 else 0), e.2.2 + 1) else e)
  else m ++ [(cat, (if correct then 1 else 0), 1)]

/-- The `category_performance` dict of `_generate_result`: for each question
index `i`, tally `user_answers[i] == questions[i].correct_answer` under the
question's category.  (A `None` answer compares unequal, as in Python.) -/
def category_performance (session : QuizSession) : List (QuizCategory × ℕ × ℕ) :=
  (List.range session.questions.length).foldl
    (fun m i =>
      let q := session.questions.getD i default
      perf_add m q.category (session.user_answers.getD i none == some q.correct_answer))
    []

/-- The weak/strong area split of `_generate_result`: per-category percentage
`< 60` is weak, `≥ 80` is strong, in `category_performance` order. -/
def weak_strong (perf : List (QuizCategory × ℕ × ℕ)) : List String × List String :=
  perf.foldl
    (fun acc e =>
      let percentage : ℚ := ((e.2.1 : ℚ) / (e.2.2 : ℚ)) * 100
      if percentage < 60 then (acc.1 ++ [categoryDisplay e.1], acc.2)
      else if 80 ≤ percentage then (acc.1, acc.2 ++ [categoryDisplay e.1])
      else acc)
    ([], [])

/-- `QuizManager._generate_recommendations(score_percentage, weak_areas)`. -/
def generate_recommendations (score_percentage : ℚ) (weak_areas : List String) :
    List String :=
  let recommendations : List String :=
    if score_percentage < 40 then
      ["📚 Focus on fundamental concepts. Start with basic topics.",
       "🕐 Spend more time on practice questions daily."]
    else if score_percentage < 60 then
      ["📖 Good progress! Focus on weak areas for improvement.",
       "⏰ Practice time management for better performance."]
    else if score_percentage < 80 then
      ["🎯 Excellent work! Fine-tune your weak areas.",
       "🏃 Work on speed and accuracy balance."]
    else
      ["🏆 Outstanding performance! Keep up the excellent work.",
       "🌟 Consider attempting harder difficulty levels."]
  if weak_areas.isEmpty then recommendations
  else recommendations ++ ["⚠️ Focus areas: " ++ String.intercalate ", " weak_areas]

/-- `QuizManager._generate_result(session)`, called with `end_time` already
stamped (embedded with `getD start_time` for totality).  The database save is
a logging no-op in the source. -/
def generate_result (session : QuizSession) : QuizResult :=
  let total_time := session.end_time.getD session.start_time - session.start_time
  let score_percentage : ℚ := ((session.score : ℚ) / (session.questions.length : ℚ)) * 100
  let ws := weak_strong (category_performance session)
  { session_id := session.session_id
    user_id := session.user_id
    total_questions := session.questions.length
    correct_answers := session.score
    score_percentage := score_percentage
    time_taken := total_time
    category := session.category
    difficulty := session.difficulty
    weak_areas := ws.1
    strong_areas := ws.2
    recommendations := generate_recommendations score_percentage ws.1 }

/-- Return value of `QuizManager.submit_answer`: either the `{"error": ...}`
dict, or the feedback dict (whose `quiz_completed` / `final_result` keys are
present only on completion, embedded as a `Bool` flag and an `Option`). -/
inductive SubmitResult where
  | error (msg : String)
  | answered (correct : Bool) (correct_answer : ℕ) (explanation : String)
      (current_score : ℕ) (questions_completed : ℕ) (total_questions : ℕ)
      (quiz_completed : Bool) (final_result : Option QuizResult)
deriving DecidableEq, Repr

/-- The `quiz_completed` flag of a `submit_answer` response (absent keys and
error responses read as `false`, as with Python `result.get('quiz_completed')`). -/
def SubmitResult.completed : SubmitResult → Bool
  | SubmitResult.error _ => false
  | SubmitResult.answered _ _ _ _ _ _ qc _ => qc

/-- Whether a `submit_answer` response is the `{"error": ...}` dict. -/
def SubmitResult.isError : SubmitResult → Bool
  | SubmitResult.error _ => true
  | SubmitResult.answered _ _ _ _ _ _ _ _ => false

/-- The `QuizManager.active_sessions` dict: an insertion-ordered association
list keyed by session id. -/
abbrev Sessions : Type := List (String × QuizSession)

/-- `self.active_sessions.get(session_id)`. -/
def lookup_session (st : Sessions) (session_id : String) : Option QuizSession :=
  (List.find? (fun p => p.1 == session_id) st).map (fun p => p.2)

/-- `self.active_sessions[session_id] = session` (dict assignment: overwrite
in place if the key exists, else append). -/
def dict_insert (st : Sessions) (k : String) (v : QuizSession) : Sessions :=
  if List.any st (fun p => p.1 == k) then
    List.map (fun p => if p.1 = k then (k, v) else p) st
  else st ++ [(k, v)]

/-- In-place mutation of the session object stored under an existing key
(Python mutates the shared object; here the updated value is written back). -/
def dict_set (st : Sessions) (k : String) (v : QuizSession) : Sessions :=
  List.map (fun p => if p.1 = k then (k, v) else p) st

/-- `QuizManager.create_weekly_quiz(user_id, category, difficulty,
question_count)`, lines 181–207.  The freshly generated uuid-based
`session_id` and the `random.sample` output of `_select_questions` are
nondeterministic and enter the model as parameters; `now` is
`datetime.now()`.  No duplicate-session check is performed: the new session
is unconditionally registered in `active_sessions`. -/
def create_weekly_quiz (st : Sessions) (user_id : ℤ) (category : QuizCategory)
    (difficulty : QuizDifficulty) (session_id : String) (questions : List QuizQuestion)
    (now : ℚ) : QuizSession × Sessions :=
  let session : QuizSession :=
    { session_id := session_id
      user_id := user_id
      questions := questions
      current_question := 0
      score := 0
      start_time := now
      end_time := none
      user_answers := List.replicate questions.length none
      time_per_question := []
      category := category
      difficulty := difficulty }
  (session, dict_insert st session_id session)

/-- The in-place mutation `submit_answer` performs on the session object when
the current question is answered: record the answer and its elapsed time,
bump the score on a correct answer, advance `current_question`, and stamp
`end_time` when this was the last question. -/
def answered_session (session : QuizSession) (answer : ℕ) (now : ℚ) : QuizSession :=
  let current_q_idx := session.current_question
  let question_time : ℚ :=
    (now - session.start_time) -
      (if session.time_per_question.isEmpty then 0 else session.time_per_question.sum)
  let is_correct := answer == (session.questions.getD current_q_idx default).correct_answer
  let new_current := current_q_idx + 1
  let completed := session.questions.length ≤ new_current
  { session with
    user_answers := session.user_answers.set current_q_idx (some answer)
    time_per_question := session.time_per_question ++ [question_time]
    score := if is_correct then session.score + 1 else session.score
    current_question := new_current
    end_time := if completed then some now else session.end_time }

/-- `QuizManager.submit_answer(session_id, answer)`, lines 249–295; `now` is
`datetime.now()`.  The spaced-repetition side update on completion
(`_update_spaced_repetition`) touches only the separate progress store, not
`active_sessions`, and is outside this state. -/
def submit_answer (st : Sessions) (session_id : String) (answer : ℕ) (now : ℚ) :
    SubmitResult × Sessions :=
  match lookup_session st session_id with
  | none => (SubmitResult.error "Session not found", st)
  | some session =>
    if session.questions.length ≤ session.current_question then
      (SubmitResult.error "Quiz already completed", st)
    else
      let question := session.questions.getD session.current_question default
      let session1 := answered_session session answer now
      let completed := session.questions.length ≤ session.current_question + 1
      (SubmitResult.answered (answer == question.correct_answer) question.correct_answer
        question.explanation session1.score (session.current_question + 1)
        session.questions.length completed
        (if completed then some (generate_result session1) else none),
       dict_set st session_id session1)

/-- The `/quiz` command handler (`main.py` lines 452–495): if the user already
has an active session it re-sends the current question and returns without
calling `create_weekly_quiz`; otherwise it creates and registers a new
session.  Returns the resulting active-session state. -/
def quiz_command (st : Sessions) (user_id : ℤ) (category : QuizCategory)
    (difficulty : QuizDifficulty) (session_id : String) (questions : List QuizQuestion)
    (now : ℚ) : Sessions :=
  if List.any st (fun p => p.2.user_id == user_id) then st
  else (create_weekly_quiz st user_id category difficulty session_id questions now).2

/-- The quiz-answer handler (`main.py` lines 582–641): pick the user's first
active session, submit the answer, and — only if the response says
`quiz_completed` — delete the session from `active_sessions`.  (The A/B/C/D
message validation is modelled by the `answer` index already being parsed.) -/
def handle_quiz_answer (st : Sessions) (user_id : ℤ) (answer : ℕ) (now : ℚ) :
    Option SubmitResult × Sessions :=
  match List.filter (fun p => p.2.user_id == user_id) st with
  | [] => (none, st)
  | s :: _ =>
    let r := submit_answer st s.1 answer now
    if r.1.completed then
      (some r.1, List.filter (fun p => !(p.1 == s.1)) r.2)
    else (some r.1, r.2)

/-- Question `qa_001` of the bundled question bank
(`QuizManager._initialize_question_bank`). -/
def qa_001 : QuizQuestion :=
  { id := "qa_001"
    category := QuizCategory.quantitative_aptitude
    difficulty := QuizDifficulty.easy
    question := "If a train travels 60 km in 1 hour, how far will it travel in 3.5 hours?"
    options := ["180 km", "210 km", "240 km", "200 km"]
    correct_answer := 1
    explanation := "Distance = Speed × Time = 60 × 3.5 = 210 km"
    tags := ["speed", "distance", "time"] }

/-- A concrete already-completed one-question session (all questions
answered), used to exercise the error paths at specific inputs. -/
def done_session : QuizSession :=
  { session_id := "s1"
    user_id := 7
    questions := [qa_001]
    current_question := 1
    score := 1
    start_time := 0
    end_time := some 9
    user_answers := [some 1]
    time_per_question := [9]
    category := QuizCategory.mixed
    difficulty := QuizDifficulty.easy }

/-- One externally triggered quiz-manager operation: a `create_weekly_quiz`
call (with its generated session id and sampled questions) or a
`submit_answer` call. -/
inductive QuizOp where
  | create (user_id : ℤ) (category : QuizCategory) (difficulty : QuizDifficulty)
      (session_id : String) (questions : List QuizQuestion) (now : ℚ)
  | submit (session_id : String) (answer : ℕ) (now : ℚ)

/-- Effect of one operation on the active-session state. -/
def apply_op (st : Sessions) : QuizOp → Sessions
  | QuizOp.create user_id category difficulty session_id questions now =>
      (create_weekly_quiz st user_id category difficulty session_id questions now).2
  | QuizOp.submit session_id answer now => (submit_answer st session_id answer now).2

/-- The active-session state after a sequence of operations from the empty
initial state (`self.active_sessions = {}`). -/
def run_ops (ops : List QuizOp) : Sessions :=
  ops.foldl apply_op []

/-- The per-session invariant: `score ≤ current_question ≤ #questions` (both
are naturals, so `0 ≤ score` is implicit) and `user_answers` keeps the length
fixed at creation. -/
def SessionInv (s : QuizSession) : Prop :=
  s.score ≤ s.current_question ∧ s.current_question ≤ s.questions.length ∧
    s.user_answers.length = s.questions.length

/-- All registered sessions satisfy the per-session invariant. -/
def StateInv (st : Sessions) : Prop := ∀ p ∈ st, SessionInv p.2

/-- The base interval of a passing review/mastered-stage update, as the spec
words it: 1 day for the 1st post-graduation repetition, 6 for the 2nd, else
`ceil(previous_interval * easeFactor)`. -/
def spec_pass_base (interval ease_factor : ℚ) (repetitions : ℕ) : ℚ :=
  if repetitions + 1 = 1 then 1
  else if repetitions + 1 = 2 then 6
  else ((⌈interval * ease_factor⌉ : ℤ) : ℚ)

/-- The interval actually returned for a passing review/mastered-stage update:
the base interval, with the grade-5 easy bonus applied through a second
`math.ceil` (`ceil(base * 1.3)`), not as an exact multiplication. -/
def spec_pass_interval (interval ease_factor : ℚ) (grade : ℤ) (repetitions : ℕ) : ℚ :=
  if grade = 5 then ((⌈spec_pass_base interval ease_factor repetitions * easy_bonus⌉ : ℤ) : ℚ)
  else spec_pass_base interval ease_factor repetitions

/-- The average of the trailing five recorded grades, as computed by
`_update_difficulty_level`. -/
def trailing_avg (p : Progress) : ℚ :=
  let recent_grades := (p.review_history.drop (p.review_history.length - 5)).map
    (fun r => r.grade)
  ((recent_grades.sum : ℤ) : ℚ) / (recent_grades.length : ℚ)

/-! Theorems about the review scheduler. -/

/-- Every branch of `calculate_next_review` keeps the ease factor at or above
the 1.3 floor (fail and review branches clamp with `max`; new/learning
branches leave it unchanged). -/
lemma ease_min_calculate (interval ease_factor : ℚ) (grade : ℤ) (repetitions : ℕ)
    (item_stage : LearningStage) (now : ℚ) (h : ease_factor_min ≤ ease_factor) :
    ease_factor_min ≤
      (calculate_next_review interval ease_factor grade repetitions item_stage now).ease_factor := by
  unfold calculate_next_review
  split_ifs <;> dsimp <;> first | exact le_max_right _ _ | exact h

/-- `_update_difficulty_level` never touches the ease factor. -/
lemma ease_update_difficulty (p : Progress) :
    (update_difficulty_level p).ease_factor = p.ease_factor := by
  unfold update_difficulty_level
  dsimp only
  split_ifs <;> rfl

/-- The ease factor stored by `update_progress` is the one returned by
`calculate_next_review`. -/
lemma ease_update_progress (p : Progress) (grade : ℤ) (response_time : Option ℚ) (now : ℚ) :
    (update_progress p grade response_time now).ease_factor =
      (calculate_next_review p.interval p.ease_factor grade p.repetitions p.stage now).ease_factor := by
  unfold update_progress
  rw [ease_update_difficulty]

/-- Folding any review sequence through `update_progress` preserves the ease
floor. -/
lemma ease_min_fold (reviews : List (ℚ × ℤ × Option ℚ)) (p : Progress)
    (h : ease_factor_min ≤ p.ease_factor) :
    ease_factor_min ≤
      (reviews.foldl (fun q rv => update_progress q rv.2.1 rv.2.2 rv.1) p).ease_factor := by
  induction reviews generalizing p with
  | nil => exact h
  | cons rv rest ih =>
    refine ih _ ?_
    rw [ease_update_progress]
    exact ease_min_calculate _ _ _ _ _ _ h

/-- Claim C1: for every progress record with `easeFactor ≥ 1.3` and every
grade in `0..5`, the ease factor returned by `calculate_next_review` is
`≥ 1.3`; hence after any finite sequence of reviews applied through
`update_progress` to a freshly initialized record, `easeFactor ≥ 1.3` holds. -/
theorem C1_ease_factor_floor :
    (∀ (interval ease_factor : ℚ) (grade : ℤ) (repetitions : ℕ) (stage : LearningStage)
        (now : ℚ), ease_factor_min ≤ ease_factor → 0 ≤ grade → grade ≤ 5 →
        ease_factor_min ≤
          (calculate_next_review interval ease_factor grade repetitions stage now).ease_factor) ∧
    (∀ (item_id : String) (t : ItemType) (now0 : ℚ) (reviews : List (ℚ × ℤ × Option ℚ)),
        (∀ rv ∈ reviews, 0 ≤ rv.2.1 ∧ rv.2.1 ≤ 5) →
        ease_factor_min ≤
          (reviews.foldl (fun q rv => update_progress q rv.2.1 rv.2.2 rv.1)
            (init_item item_id t now0)).ease_factor) := by
  constructor
  · intro interval ease_factor grade repetitions stage now h _ _
    exact ease_min_calculate interval ease_factor grade repetitions stage now h
  · intro item_id t now0 reviews _
    refine ease_min_fold reviews _ ?_
    norm_num [init_item, ease_factor_default, ease_factor_min]

/-- Witness for C1 at concrete inputs. -/
theorem C1_ease_factor_floor_witness :
    ease_factor_min ≤
      (([((0 : ℚ), (4 : ℤ), (none : Option ℚ)), ((1 : ℚ), (2 : ℤ), (none : Option ℚ))]).foldl
        (fun q rv => update_progress q rv.2.1 rv.2.2 rv.1)
        (init_item "w" ItemType.vocabulary 0)).ease_factor ∧
    ease_factor_min ≤ (calculate_next_review 1 2.5 0 0 LearningStage.new 0).ease_factor :=
  ⟨C1_ease_factor_floor.2 "w" ItemType.vocabulary 0 [(0, 4, none), (1, 2, none)] (by decide),
   C1_ease_factor_floor.1 1 2.5 0 0 LearningStage.new 0 (by norm_num [ease_factor_min])
     (by decide) (by decide)⟩

/-- Claim C4: a failing grade (`< 3`) always demotes to `learning`, resets
repetitions to 0, drops the ease factor by 0.2 clamped at the 1.3 floor, and
returns the sub-day first learning step (1 minute = 1/1440 days) when the
record was `new`, else 1 day. -/
theorem C4_fail_resets (interval ease_factor : ℚ) (grade : ℤ) (repetitions : ℕ)
    (stage : LearningStage) (now : ℚ) (h : grade < grade_threshold) :
    (calculate_next_review interval ease_factor grade repetitions stage now).stage =
        LearningStage.learning ∧
    (calculate_next_review interval ease_factor grade repetitions stage now).repetitions = 0 ∧
    (calculate_next_review interval ease_factor grade repetitions stage now).ease_factor =
        max (ease_factor - 0.2) ease_factor_min ∧
    (calculate_next_review interval ease_factor grade repetitions stage now).next_interval =
        (if stage = LearningStage.new then 1 / 1440 else 1) := by
  unfold calculate_next_review
  rw [if_pos h]
  refine ⟨rfl, rfl, rfl, ?_⟩
  split_ifs <;> norm_num [learning_steps]

/-- Witness for C4 at concrete inputs. -/
theorem C4_fail_resets_witness :
    (calculate_next_review 6 2.5 2 3 LearningStage.review 0).stage = LearningStage.learning ∧
    (calculate_next_review 6 2.5 2 3 LearningStage.review 0).repetitions = 0 ∧
    (calculate_next_review 6 2.5 2 3 LearningStage.review 0).ease_factor =
        max (2.5 - 0.2) ease_factor_min ∧
    (calculate_next_review 6 2.5 2 3 LearningStage.review 0).next_interval =
        (if LearningStage.review = LearningStage.new then 1 / 1440 else 1) :=
  C4_fail_resets 6 2.5 2 3 LearningStage.review 0 (by decide)

/-- Claim C3 as stated is false at a concrete input: a passing grade 5 on a
`review`-stage record with `repetitions = 0` returns an interval of 2 days
(`ceil(1 * 1.3)`), which is neither the claimed exact product `1 × 1.3` nor
the claimed "exactly 1 day" for the first post-graduation repetition. -/
theorem C3_counterexample :
    (calculate_next_review 1 2.5 5 0 LearningStage.review 0).next_interval = 2 ∧
    (2 : ℚ) ≠ 1 * (13 / 10) ∧ (2 : ℚ) ≠ 1 := by
  have hc : (⌈(13 / 10 : ℚ)⌉ : ℤ) = 2 := by
    rw [Int.ceil_eq_iff]
    norm_num
  refine ⟨?_, by norm_num, by norm_num⟩
  unfold calculate_next_review
  rw [if_neg (by decide : ¬ (5 : ℤ) < grade_threshold),
    if_neg (by decide : ¬ LearningStage.review = LearningStage.new),
    if_neg (by decide : ¬ LearningStage.review = LearningStage.learning)]
  norm_num [easy_bonus, hc]

/-- Claim C3 (amended): for every passing grade (`3 ≤ grade ≤ 5`) applied in
stage `review` or `mastered`, the returned interval is the base interval
(1 day at repetition count 1, 6 days at 2, else `ceil(interval × ease)`), with
the grade-5 easy bonus applied as `ceil(base × 1.3)`; the returned stage is
`mastered` iff that interval reaches the 21-day threshold, else `review`; and
for grades 3–4 (where no bonus applies) the intervals at repetition counts 1
and 2 are exactly 1 and 6 days, independent of ease factor. -/
theorem C3_review_pass (interval ease_factor : ℚ) (grade : ℤ) (repetitions : ℕ)
    (stage : LearningStage) (now : ℚ)
    (hs : stage = LearningStage.review ∨ stage = LearningStage.mastered)
    (hg : grade_threshold ≤ grade) (hg5 : grade ≤ 5) :
    (calculate_next_review interval ease_factor grade repetitions stage now).next_interval =
        spec_pass_interval interval ease_factor grade repetitions ∧
    (calculate_next_review interval ease_factor grade repetitions stage now).repetitions =
        repetitions + 1 ∧
    ((calculate_next_review interval ease_factor grade repetitions stage now).stage =
        LearningStage.mastered ↔
      mastery_threshold ≤ spec_pass_interval interval ease_factor grade repetitions) ∧
    ((calculate_next_review interval ease_factor grade repetitions stage now).stage =
        LearningStage.mastered ∨
      (calculate_next_review interval ease_factor grade repetitions stage now).stage =
        LearningStage.review) ∧
    (grade ≤ 4 → repetitions = 0 →
      (calculate_next_review interval ease_factor grade repetitions stage now).next_interval = 1) ∧
    (grade ≤ 4 → repetitions = 1 →
      (calculate_next_review interval ease_factor grade repetitions stage now).next_interval = 6) := by
  have hnf : ¬ grade < grade_threshold := not_lt.mpr hg
  have hsn : ¬ stage = LearningStage.new := by
    rcases hs with rfl | rfl <;> decide
  have hsl : ¬ stage = LearningStage.learning := by
    rcases hs with rfl | rfl <;> decide
  unfold calculate_next_review spec_pass_interval spec_pass_base
  rw [if_neg hnf, if_neg hsn, if_neg hsl]
  dsimp only
  refine ⟨rfl, rfl, ?_, ?_, ?_, ?_⟩
  · constructor
    · intro hm
      by_contra hc
      rw [if_neg hc] at hm
      exact LearningStage.noConfusion hm
    · intro hc
      rw [if_pos hc]
  · split_ifs <;> simp
  · intro h4 h0
    subst h0
    have h5 : ¬ grade = 5 := by omega
    simp [h5]
  · intro h4 h1
    subst h1
    have h5 : ¬ grade = 5 := by omega
    norm_num [h5]

/-- Witness for the amended C3 at concrete inputs (grade 4, repetition
count 0→1, `review` stage). -/
theorem C3_review_pass_witness :
    (calculate_next_review 1 2.5 4 0 LearningStage.review 0).next_interval =
        spec_pass_interval 1 2.5 4 0 ∧
    (calculate_next_review 1 2.5 4 0 LearningStage.review 0).repetitions = 0 + 1 ∧
    ((calculate_next_review 1 2.5 4 0 LearningStage.review 0).stage = LearningStage.mastered ↔
      mastery_threshold ≤ spec_pass_interval 1 2.5 4 0) ∧
    ((calculate_next_review 1 2.5 4 0 LearningStage.review 0).stage = LearningStage.mastered ∨
      (calculate_next_review 1 2.5 4 0 LearningStage.review 0).stage = LearningStage.review) ∧
    ((4 : ℤ) ≤ 4 → 0 = 0 →
      (calculate_next_review 1 2.5 4 0 LearningStage.review 0).next_interval = 1) ∧
    ((4 : ℤ) ≤ 4 → 0 = 1 →
      (calculate_next_review 1 2.5 4 0 LearningStage.review 0).next_interval = 6) :=
  C3_review_pass 1 2.5 4 0 LearningStage.review 0 (Or.inl rfl) (by decide) (by decide)

/-- Claim C7: `_update_difficulty_level` leaves the record unchanged when the
review history has fewer than 3 entries; otherwise, with `avg` the average of
the trailing 5 grades, it sets `difficultyLevel` to
`max 0.5 (difficultyLevel - 0.1)` when `avg ≥ 4.5`, to
`min 2.0 (difficultyLevel + 0.2)` when `avg < 3.0`, and leaves the record
unchanged for averages in between. -/
theorem C7_difficulty_update (p : Progress) :
    (p.review_history.length < 3 → update_difficulty_level p = p) ∧
    (3 ≤ p.review_history.length →
      (4.5 ≤ trailing_avg p → update_difficulty_level p =
          { p with difficulty_level := max 0.5 (p.difficulty_level - 0.1) }) ∧
      (trailing_avg p < 3.0 → update_difficulty_level p =
          { p with difficulty_level := min 2.0 (p.difficulty_level + 0.2) }) ∧
      (3.0 ≤ trailing_avg p → trailing_avg p < 4.5 → update_difficulty_level p = p)) := by
  unfold update_difficulty_level trailing_avg
  dsimp only
  split_ifs with h1 h2 h3
  · exact ⟨fun _ => rfl, fun h => absurd h (by omega)⟩
  · exact ⟨fun h => absurd h h1,
      fun _ => ⟨fun _ => rfl, fun h => by linarith, fun _ h => by linarith⟩⟩
  · exact ⟨fun h => absurd h h1,
      fun _ => ⟨fun h => by linarith, fun _ => rfl, fun h _ => by linarith⟩⟩
  · exact ⟨fun h => absurd h h1,
      fun _ => ⟨fun h => by linarith, fun h => by linarith, fun _ _ => rfl⟩⟩

/-- Witness for C7: three grade-5 reviews average 5 ≥ 4.5, so the difficulty
level drops by 0.1 (clamped at 0.5). -/
theorem C7_difficulty_update_witness :
    update_difficulty_level
        { init_item "w7" ItemType.vocabulary 0 with
          review_history := [⟨0, 5, none, 1, 1⟩, ⟨0, 5, none, 1, 1⟩, ⟨0, 5, none, 1, 1⟩] } =
      { { init_item "w7" ItemType.vocabulary 0 with
          review_history := [⟨0, 5, none, 1, 1⟩, ⟨0, 5, none, 1, 1⟩, ⟨0, 5, none, 1, 1⟩] } with
        difficulty_level :=
          max 0.5
            (({ init_item "w7" ItemType.vocabulary 0 with
                review_history :=
                  [⟨0, 5, none, 1, 1⟩, ⟨0, 5, none, 1, 1⟩,
                    ⟨0, 5, none, 1, 1⟩] } : Progress).difficulty_level - 0.1) } :=
  ((C7_difficulty_update _).2 (by decide)).1 (by norm_num [trailing_avg, init_item])

/-- Stability of the descending insertion step: inserting `a` into a sorted
list keeps every priority class in order — `a` lands in front of the
equal-priority elements already present (which, in `insertionSort`, all came
later in the input). -/
lemma filter_orderedInsert (a : ReviewItem) (l : List ReviewItem)
    (hl : l.Sorted prio_ge) (q : ℚ) :
    (l.orderedInsert prio_ge a).filter (fun x => decide (x.priority = q)) =
      if a.priority = q then a :: l.filter (fun x => decide (x.priority = q))
      else l.filter (fun x => decide (x.priority = q)) := by
  induction l with
  | nil =>
    by_cases h : a.priority = q <;> simp [List.orderedInsert, List.filter_cons, h]
  | cons b t ih =>
    rw [List.orderedInsert]
    rcases le_or_lt b.priority a.priority with hab | hab
    · rw [if_pos (show prio_ge a b from hab)]
      by_cases h : a.priority = q <;> simp [List.filter_cons, h]
    · rw [if_neg (show ¬ prio_ge a b from not_le.mpr hab)]
      have ih2 := ih (List.Sorted.of_cons hl)
      by_cases h : a.priority = q
      · have hbq : ¬ b.priority = q := by
          rw [← h]
          exact ne_of_gt hab
        simp [List.filter_cons, hbq, ih2, h]
      · simp [List.filter_cons, ih2, h]

/-- Stability of the sort used by `get_due_items`: filtering the sorted list
at any fixed priority returns exactly the input's elements of that priority,
in input order. -/
lemma filter_insertionSort (l : List ReviewItem) (q : ℚ) :
    (List.insertionSort prio_ge l).filter (fun x => decide (x.priority = q)) =
      l.filter (fun x => decide (x.priority = q)) := by
  induction l with
  | nil => rfl
  | cons a t ih =>
    rw [List.insertionSort,
      filter_orderedInsert a _ (List.sorted_insertionSort prio_ge t) q]
    by_cases h : a.priority = q <;> simp [List.filter_cons, h, ih]

/-- Claim C5 (amended): `get_due_items` returns the stable descending-priority
sort of the due records truncated to the effective cap, so it returns at most
`effective_max_items max_items` entries (which is `max_items` itself whenever
`max_items` is a positive number — `None` *and* `0` both fall back to the
50-item default because of Python's `or`); every returned entry comes from an
input record with `next_review_date ≤ now`; the output is sorted by
non-increasing priority; and ties are kept in input iteration order (each
priority class of the sorted list filters to exactly the input's class). -/
theorem C5_due_items (up : List (String × Progress)) (m : Option ℕ)
    (t : Option (List ItemType)) (now : ℚ) :
    get_due_items up m t now =
        (List.insertionSort prio_ge (due_list up t now)).take (effective_max_items m) ∧
    (get_due_items up m t now).length ≤ effective_max_items m ∧
    (∀ n, m = some n → 0 < n → (get_due_items up m t now).length ≤ n) ∧
    (∀ it ∈ get_due_items up m t now,
      ∃ pr ∈ up, it = mkReviewItem now pr.1 pr.2 ∧ pr.2.next_review_date ≤ now) ∧
    List.Pairwise prio_ge (get_due_items up m t now) ∧
    (∀ q : ℚ,
      (List.insertionSort prio_ge (due_list up t now)).filter
          (fun x => decide (x.priority = q)) =
        (due_list up t now).filter (fun x => decide (x.priority = q))) := by
  refine ⟨rfl, List.length_take_le _ _, ?_, ?_, ?_, fun q => filter_insertionSort _ q⟩
  · intro n hm hn
    subst hm
    have he : effective_max_items (some n) = n := by
      simp [effective_max_items, hn.ne']
    exact le_trans
      (List.length_take_le (effective_max_items (some n))
        (List.insertionSort prio_ge (due_list up t now)))
      (le_of_eq he)
  · intro it hit
    have h1 : it ∈ List.insertionSort prio_ge (due_list up t now) :=
      (List.take_sublist _ _).subset hit
    have h2 : it ∈ due_list up t now :=
      (List.perm_insertionSort prio_ge _).subset h1
    unfold due_list at h2
    obtain ⟨pr, hpr, rfl⟩ := List.mem_map.mp h2
    have hpr2 := List.mem_filter.mp hpr
    refine ⟨pr, hpr2.1, rfl, ?_⟩
    have := hpr2.2
    simp only [Bool.and_eq_true, decide_eq_true_eq] at this
    exact this.2
  · exact List.Pairwise.sublist (List.take_sublist _ _)
      (List.sorted_insertionSort prio_ge _)

/-- Witness for C5 at concrete inputs. -/
theorem C5_due_items_witness :
    (get_due_items [("a", init_item "a" ItemType.vocabulary 0)] (some 2) none 0).length ≤ 2 :=
  (C5_due_items [("a", init_item "a" ItemType.vocabulary 0)] (some 2) none 0).2.2.1 2 rfl
    (by norm_num)

/-- Claim C5 as stated is false at `maxItems = 0`: Python's
`max_items or self.max_daily_reviews` treats an explicit `0` as falsy and
replaces it with the 50-item default, so a single due record yields one
returned item — more than the requested `maxItems = 0`. -/
theorem C5_counterexample :
    0 < (get_due_items [("a", init_item "a" ItemType.vocabulary 0)] (some 0) none 0).length := by
  have hdue : due_list [("a", init_item "a" ItemType.vocabulary 0)] none 0 =
      [mkReviewItem 0 "a" (init_item "a" ItemType.vocabulary 0)] := by
    unfold due_list type_allowed init_item
    norm_num [List.filter_cons]
  unfold get_due_items
  rw [hdue]
  norm_num [effective_max_items, max_daily_reviews, List.insertionSort, List.orderedInsert]

/-- Claim C8: `get_due_items` is a read-only, deterministic function of the
progress map and the clock — a second call on the state returned by the first
(no intervening mutation) yields the identical ordered output, and the
progress map is returned unchanged. -/
theorem C8_due_items_idempotent (up : List (String × Progress)) (m : Option ℕ)
    (t : Option (List ItemType)) (now : ℚ) :
    (get_due_items_call (get_due_items_call up m t now).2 m t now).1 =
        (get_due_items_call up m t now).1 ∧
    (get_due_items_call (get_due_items_call up m t now).2 m t now).2 = up :=
  ⟨rfl, rfl⟩

/-! Theorems about the quiz session engine. -/

/-- After filtering out every pair keyed `k`, no pair keyed `k` remains. -/
lemma any_filter_not (l : Sessions) (k : String) :
    List.any (List.filter (fun p => !(p.1 == k)) l) (fun p => p.1 == k) = false := by
  induction l with
  | nil => rfl
  | cons p t ih =>
    cases hb : (p.1 == k) <;> simp [List.filter_cons, hb, ih]

/-- Unfolding lookup over a cons cell. -/
lemma lookup_session_cons (q : String × QuizSession) (t : Sessions) (k : String) :
    lookup_session (q :: t) k = if q.1 == k then some q.2 else lookup_session t k := by
  unfold lookup_session
  rw [List.find?_cons]
  cases hq : q.1 == k <;> simp [hq]

/-- Writing value `v` under a key that is present makes that key look up to
`v`. -/
lemma lookup_dict_set (st : Sessions) (k : String) (v s : QuizSession)
    (h : lookup_session st k = some s) :
    lookup_session (dict_set st k v) k = some v := by
  induction st with
  | nil => simp [lookup_session] at h
  | cons p t ih =>
    unfold dict_set
    rw [List.map_cons]
    by_cases hpk : p.1 = k
    · rw [if_pos hpk, lookup_session_cons]
      simp
    · rw [lookup_session_cons, if_neg (by simp [hpk])] at h
      rw [if_neg hpk, lookup_session_cons, if_neg (by simp [hpk])]
      exact ih h

/-- A successful lookup comes from a member pair of the association list. -/
lemma lookup_mem (st : Sessions) (k : String) (s : QuizSession)
    (h : lookup_session st k = some s) : ∃ q ∈ st, q.2 = s := by
  unfold lookup_session at h
  cases hf : List.find? (fun p => p.1 == k) st with
  | none => rw [hf] at h; simp at h
  | some q =>
    rw [hf] at h
    exact ⟨q, List.mem_of_find?_eq_some hf, by simpa using h⟩

/-- Every pair of the dict after `dict_insert` is the inserted pair or an
original one. -/
lemma mem_dict_insert (st : Sessions) (k : String) (v : QuizSession)
    (p : String × QuizSession) (h : p ∈ dict_insert st k v) : p = (k, v) ∨ p ∈ st := by
  unfold dict_insert at h
  split_ifs at h with hc
  · obtain ⟨q, hq, hfq⟩ := List.mem_map.mp h
    by_cases hqk : q.1 = k
    · left
      rw [← hfq, if_pos hqk]
    · right
      rw [← hfq, if_neg hqk]
      exact hq
  · rcases List.mem_append.mp h with h1 | h2
    · right; exact h1
    · left; simpa using h2

/-- Every pair of the dict after `dict_set` is the written pair or an
original one. -/
lemma mem_dict_set (st : Sessions) (k : String) (v : QuizSession)
    (p : String × QuizSession) (h : p ∈ dict_set st k v) : p = (k, v) ∨ p ∈ st := by
  unfold dict_set at h
  obtain ⟨q, hq, hfq⟩ := List.mem_map.mp h
  by_cases hqk : q.1 = k
  · left
    rw [← hfq, if_pos hqk]
  · right
    rw [← hfq, if_neg hqk]
    exact hq

/-- Dict assignment under a fresh key appends the new pair. -/
lemma dict_insert_fresh (st : Sessions) (k : String) (v : QuizSession)
    (h : List.any st (fun p => p.1 == k) = false) :
    dict_insert st k v = st ++ [(k, v)] := by
  unfold dict_insert
  rw [if_neg (by simp [h])]

/-- `submit_answer` on a present, unfinished session: the response is the
feedback dict and the state stores the mutated session. -/
lemma submit_answer_of_lt (st : Sessions) (sid : String) (s : QuizSession) (answer : ℕ)
    (now : ℚ) (h : lookup_session st sid = some s)
    (hlt : s.current_question < s.questions.length) :
    (submit_answer st sid answer now).2 = dict_set st sid (answered_session s answer now) ∧
    (submit_answer st sid answer now).1 = SubmitResult.answered
      (answer == (s.questions.getD s.current_question default).correct_answer)
      (s.questions.getD s.current_question default).correct_answer
      (s.questions.getD s.current_question default).explanation
      (answered_session s answer now).score
      (s.current_question + 1) s.questions.length
      (decide (s.questions.length ≤ s.current_question + 1))
      (if s.questions.length ≤ s.current_question + 1 then
        some (generate_result (answered_session s answer now)) else none) := by
  unfold submit_answer
  rw [h]
  dsimp only
  rw [if_neg (not_le.mpr hlt)]
  exact ⟨rfl, rfl⟩

/-- Answering a question preserves the per-session invariant. -/
lemma session_inv_answered (s : QuizSession) (answer : ℕ) (now : ℚ) (h : SessionInv s)
    (hlt : s.current_question < s.questions.length) :
    SessionInv (answered_session s answer now) := by
  obtain ⟨h1, h2, h3⟩ := h
  refine ⟨?_, ?_, ?_⟩ <;> unfold answered_session <;> dsimp only
  · split_ifs <;> omega
  · omega
  · simp [h3]

/-- Every quiz-manager operation preserves the state invariant. -/
lemma state_inv_apply (st : Sessions) (op : QuizOp) (h : StateInv st) :
    StateInv (apply_op st op) := by
  cases op with
  | create user_id category difficulty session_id questions now =>
    intro p hp
    unfold apply_op create_weekly_quiz at hp
    dsimp only at hp
    rcases mem_dict_insert _ _ _ _ hp with rfl | hmem
    · exact ⟨le_refl 0, Nat.zero_le _, by simp⟩
    · exact h p hmem
  | submit session_id answer now =>
    intro p hp
    unfold apply_op submit_answer at hp
    dsimp only at hp
    cases hl : lookup_session st session_id with
    | none =>
      rw [hl] at hp
      exact h p hp
    | some s =>
      rw [hl] at hp
      dsimp only at hp
      by_cases hle : s.questions.length ≤ s.current_question
      · rw [if_pos hle] at hp
        exact h p hp
      · rw [if_neg hle] at hp
        dsimp only at hp
        rcases mem_dict_set _ _ _ _ hp with rfl | hmem
        · have hs : SessionInv s := by
            obtain ⟨q, hq, hq2⟩ := lookup_mem st session_id s hl
            have hinv := h q hq
            rwa [hq2] at hinv
          exact session_inv_answered s answer now hs (not_le.mp hle)
        · exact h p hmem

/-- The state invariant holds along any operation sequence. -/
lemma state_inv_run (ops : List QuizOp) :
    ∀ st, StateInv st → StateInv (ops.foldl apply_op st) := by
  induction ops with
  | nil => intro st h; exact h
  | cons op rest ih =>
    intro st h
    exact ih _ (state_inv_apply st op h)

/-- Claim C10: `submit_answer` on an unknown session id, or on a session whose
`current_question` already equals the number of questions, returns the
corresponding error dict and returns the active-session state unchanged (so
every field of every session and the active set itself are untouched). -/
theorem C10_submit_error_no_mutation (st : Sessions) (sid : String) (answer : ℕ) (now : ℚ) :
    (lookup_session st sid = none →
      submit_answer st sid answer now = (SubmitResult.error "Session not found", st)) ∧
    (∀ s, lookup_session st sid = some s → s.current_question = s.questions.length →
      submit_answer st sid answer now = (SubmitResult.error "Quiz already completed", st)) := by
  constructor
  · intro h
    unfold submit_answer
    rw [h]
  · intro s h hq
    unfold submit_answer
    rw [h]
    dsimp only
    rw [if_pos (by omega : s.questions.length ≤ s.current_question)]

/-- Witness for C10: both error paths at concrete inputs. -/
theorem C10_submit_error_no_mutation_witness :
    submit_answer [] "missing" 0 0 = (SubmitResult.error "Session not found", []) ∧
    submit_answer [("s1", done_session)] "s1" 2 5 =
      (SubmitResult.error "Quiz already completed", [("s1", done_session)]) :=
  ⟨(C10_submit_error_no_mutation [] "missing" 0 0).1 rfl,
   (C10_submit_error_no_mutation [("s1", done_session)] "s1" 2 5).2 done_session rfl rfl⟩

/-- Claim C2 as stated is false at a concrete input: `create_weekly_quiz`
performs no duplicate-session check.  Called a second time for user 7 while
that user's first session is still active, it raises no error (its return
type has no failure case) and registers a second session: the active set then
holds two sessions, both belonging to user 7. -/
theorem C2_counterexample :
    ((create_weekly_quiz
        (create_weekly_quiz [] 7 QuizCategory.mixed QuizDifficulty.medium "s1" [qa_001] 0).2
        7 QuizCategory.mixed QuizDifficulty.medium "s2" [qa_001] 0).2).length = 2 ∧
    List.countP (fun p => p.2.user_id == 7)
      (create_weekly_quiz
        (create_weekly_quiz [] 7 QuizCategory.mixed QuizDifficulty.medium "s1" [qa_001] 0).2
        7 QuizCategory.mixed QuizDifficulty.medium "s2" [qa_001] 0).2 = 2 := by
  constructor <;> rfl

/-- Claim C2 (amended): `create_weekly_quiz` itself never rejects — under a
fresh session id it unconditionally appends the new session to the active
set, even when the user already has an active session.  The one-active-session
guard lives in the `/quiz` command handler of `main.py`, which, when the user
already has an active session, re-sends the current question and returns the
state unchanged without calling `create_weekly_quiz` (no
`DuplicateActiveSession` error exists anywhere). -/
theorem C2_create_no_duplicate_check :
    (∀ (st : Sessions) (user_id : ℤ) (category : QuizCategory) (difficulty : QuizDifficulty)
        (session_id : String) (questions : List QuizQuestion) (now : ℚ),
        List.any st (fun p => p.1 == session_id) = false →
        (create_weekly_quiz st user_id category difficulty session_id questions now).2 =
          st ++ [(session_id,
            (create_weekly_quiz st user_id category difficulty session_id questions now).1)]) ∧
    (∀ (st : Sessions) (user_id : ℤ) (category : QuizCategory) (difficulty : QuizDifficulty)
        (session_id : String) (questions : List QuizQuestion) (now : ℚ),
        List.any st (fun p => p.2.user_id == user_id) = true →
        quiz_command st user_id category difficulty session_id questions now = st) := by
  constructor
  · intro st user_id category difficulty session_id questions now h
    unfold create_weekly_quiz
    dsimp only
    exact dict_insert_fresh st session_id _ h
  · intro st user_id category difficulty session_id questions now h
    unfold quiz_command
    rw [if_pos h]

/-- Witness for the amended C2 at concrete inputs. -/
theorem C2_create_no_duplicate_check_witness :
    (create_weekly_quiz [("s1", done_session)] 7 QuizCategory.mixed QuizDifficulty.medium
        "s2" [qa_001] 0).2 =
      [("s1", done_session)] ++ [("s2",
        (create_weekly_quiz [("s1", done_session)] 7 QuizCategory.mixed QuizDifficulty.medium
          "s2" [qa_001] 0).1)] ∧
    quiz_command [("s1", done_session)] 7 QuizCategory.mixed QuizDifficulty.medium
        "s2" [qa_001] 0 = [("s1", done_session)] :=
  ⟨C2_create_no_duplicate_check.1 [("s1", done_session)] 7 QuizCategory.mixed
      QuizDifficulty.medium "s2" [qa_001] 0 rfl,
   C2_create_no_duplicate_check.2 [("s1", done_session)] 7 QuizCategory.mixed
      QuizDifficulty.medium "s2" [qa_001] 0 rfl⟩

/-- Claim C6 as stated is false at a concrete input: submitting the answer to
the last (only) question of a session produces a completed response, yet the
session is still present in `active_sessions` — `submit_answer` does not
remove it. -/
theorem C6_counterexample :
    (submit_answer (create_weekly_quiz [] 7 QuizCategory.mixed QuizDifficulty.medium "s1"
        [qa_001] 0).2 "s1" 1 30).1.completed = true ∧
    List.any (submit_answer (create_weekly_quiz [] 7 QuizCategory.mixed QuizDifficulty.medium
        "s1" [qa_001] 0).2 "s1" 1 30).2 (fun p => p.1 == "s1") = true := by
  constructor <;> rfl

/-- Claim C6 (amended): when `submit_answer` is called on the last unanswered
question, it stamps `end_time`, signals completion (with the `QuizResult`
attached), and leaves the session in the active set, stored under its key
with the updated fields; the removal is performed by the quiz-answer handler
in `main.py`, which deletes the session after a response that signals
completion — after the handler step the session id is gone from the active
set. -/
theorem C6_completion_removal :
    (∀ (st : Sessions) (sid : String) (s : QuizSession) (answer : ℕ) (now : ℚ),
        lookup_session st sid = some s →
        s.current_question + 1 = s.questions.length →
        (submit_answer st sid answer now).1.completed = true ∧
        lookup_session (submit_answer st sid answer now).2 sid =
          some (answered_session s answer now) ∧
        (answered_session s answer now).end_time = some now) ∧
    (∀ (st : Sessions) (user_id : ℤ) (answer : ℕ) (now : ℚ) (hd : String × QuizSession)
        (rest : List (String × QuizSession)),
        List.filter (fun p => p.2.user_id == user_id) st = hd :: rest →
        lookup_session st hd.1 = some hd.2 →
        hd.2.current_question + 1 = hd.2.questions.length →
        List.any (handle_quiz_answer st user_id answer now).2 (fun p => p.1 == hd.1) = false) := by
  constructor
  · intro st sid s answer now hl hq
    have hlt : s.current_question < s.questions.length := by omega
    obtain ⟨hsnd, hfst⟩ := submit_answer_of_lt st sid s answer now hl hlt
    have hcomp : decide (s.questions.length ≤ s.current_question + 1) = true := by
      simp only [decide_eq_true_eq]
      omega
    refine ⟨?_, ?_, ?_⟩
    · rw [hfst]
      exact hcomp
    · rw [hsnd]
      exact lookup_dict_set st sid _ s hl
    · unfold answered_session
      dsimp only
      rw [if_pos (by omega : s.questions.length ≤ s.current_question + 1)]
  · intro st user_id answer now hd rest hfil hl hq
    have hlt : hd.2.current_question < hd.2.questions.length := by omega
    obtain ⟨hsnd, hfst⟩ := submit_answer_of_lt st hd.1 hd.2 answer now hl hlt
    have hcomp : (submit_answer st hd.1 answer now).1.completed = true := by
      rw [hfst]
      simp only [SubmitResult.completed, decide_eq_true_eq]
      omega
    unfold handle_quiz_answer
    rw [hfil]
    dsimp only
    rw [if_pos hcomp]
    exact any_filter_not _ _

/-- Witness for the amended C6 at concrete inputs. -/
theorem C6_completion_removal_witness :
    List.any (handle_quiz_answer (create_weekly_quiz [] 7 QuizCategory.mixed
        QuizDifficulty.medium "s1" [qa_001] 0).2 7 1 30).2
      (fun p => p.1 ==
        ("s1", (create_weekly_quiz [] 7 QuizCategory.mixed QuizDifficulty.medium "s1"
          [qa_001] 0).1).1) = false :=
  C6_completion_removal.2
    (create_weekly_quiz [] 7 QuizCategory.mixed QuizDifficulty.medium "s1" [qa_001] 0).2
    7 1 30
    ("s1", (create_weekly_quiz [] 7 QuizCategory.mixed QuizDifficulty.medium "s1" [qa_001] 0).1)
    [] rfl rfl rfl

/-- Claim C9: every session reachable through `create_weekly_quiz` followed by
any sequence of `submit_answer` calls satisfies
`score ≤ current_question ≤ #questions` (scores and indices are naturals, so
`0 ≤ score` is automatic) with `user_answers` keeping the length fixed at
creation; and every non-error `submit_answer` call advances
`current_question` by exactly 1 and the score by 0 or 1, preserving the
length of `user_answers`. -/
theorem C9_session_invariants :
    (∀ ops : List QuizOp, StateInv (run_ops ops)) ∧
    (∀ (st : Sessions) (sid : String) (s : QuizSession) (answer : ℕ) (now : ℚ),
        lookup_session st sid = some s →
        (submit_answer st sid answer now).1.isError = false →
        lookup_session (submit_answer st sid answer now).2 sid =
            some (answered_session s answer now) ∧
        (answered_session s answer now).current_question = s.current_question + 1 ∧
        ((answered_session s answer now).score = s.score ∨
          (answered_session s answer now).score = s.score + 1) ∧
        (answered_session s answer now).user_answers.length = s.user_answers.length) := by
  constructor
  · intro ops
    exact state_inv_run ops [] (fun p hp => absurd hp (List.not_mem_nil p))
  · intro st sid s answer now hl herr
    have hlt : s.current_question < s.questions.length := by
      by_contra hge
      have herr2 : (submit_answer st sid answer now).1 =
          SubmitResult.error "Quiz already completed" := by
        unfold submit_answer
        rw [hl]
        dsimp only
        rw [if_pos (not_lt.mp hge)]
      rw [herr2] at herr
      exact absurd herr (by simp [SubmitResult.isError])
    obtain ⟨hsnd, hfst⟩ := submit_answer_of_lt st sid s answer now hl hlt
    refine ⟨?_, rfl, ?_, ?_⟩
    · rw [hsnd]
      exact lookup_dict_set st sid _ s hl
    · unfold answered_session
      dsimp only
      split_ifs
      · exact Or.inr rfl
      · exact Or.inl rfl
    · unfold answered_session
      dsimp only
      simp

/-- Witness for C9 at concrete inputs. -/
theorem C9_session_invariants_witness :
    lookup_session (submit_answer (create_weekly_quiz [] 7 QuizCategory.mixed
        QuizDifficulty.medium "s1" [qa_001] 0).2 "s1" 1 30).2 "s1" =
      some (answered_session (create_weekly_quiz [] 7 QuizCategory.mixed
        QuizDifficulty.medium "s1" [qa_001] 0).1 1 30) ∧
    (answered_session (create_weekly_quiz [] 7 QuizCategory.mixed QuizDifficulty.medium
        "s1" [qa_001] 0).1 1 30).current_question =
      (create_weekly_quiz [] 7 QuizCategory.mixed QuizDifficulty.medium "s1"
        [qa_001] 0).1.current_question + 1 ∧
    ((answered_session (create_weekly_quiz [] 7 QuizCategory.mixed QuizDifficulty.medium
        "s1" [qa_001] 0).1 1 30).score =
      (create_weekly_quiz [] 7 QuizCategory.mixed QuizDifficulty.medium "s1"
        [qa_001] 0).1.score ∨
     (answered_session (create_weekly_quiz [] 7 QuizCategory.mixed QuizDifficulty.medium
        "s1" [qa_001] 0).1 1 30).score =
      (create_weekly_quiz [] 7 QuizCategory.mixed QuizDifficulty.medium "s1"
        [qa_001] 0).1.score + 1) ∧
    (answered_session (create_weekly_quiz [] 7 QuizCategory.mixed QuizDifficulty.medium
        "s1" [qa_001] 0).1 1 30).user_answers.length =
      (create_weekly_quiz [] 7 QuizCategory.mixed QuizDifficulty.medium "s1"
        [qa_001] 0).1.user_answers.length :=
  C9_session_invariants.2
    (create_weekly_quiz [] 7 QuizCategory.mixed QuizDifficulty.medium "s1" [qa_001] 0).2
    "s1"
    (create_weekly_quiz [] 7 QuizCategory.mixed QuizDifficulty.medium "s1" [qa_001] 0).1
    1 30 rfl rfl

end SSC
